import Mathlib

/-!
Verification development for the boost storage-deal acceptance core
(`storagemarket` package: `Provider.processDealProposal`,
`Provider.processOfflineDealProposal`, `Provider.processImportOfflineDealData`,
`Provider.checkDealPropUnique`, `Provider.checkDealUuidUnique`,
`Provider.loop`).

The Go code is embedded shallowly: machine state (deals DB, fund ledger,
storage ledger, staging files) is passed explicitly, every fallible external
call's outcome is an input supplied through an `Env` record, and each
operation additionally returns the ordered trace of the effects it performed.
Deal UUIDs and CIDs are modelled as strings, wall-clock instants as naturals.
-/

namespace Boost

/-- Deal checkpoint states (`dealcheckpoints` package), in canonical order. -/
inductive Checkpoint
  | Accepted
  | Transferred
  | Published
  | PublishConfirmed
  | AddedPiece
  | IndexedAndAnnounced
  | Complete
deriving DecidableEq, Repr

/-- The fields of `types.ProviderDealState` that the acceptance path reads or
writes. `signedPropCid` stands for the value `deal.SignedProposalCid()`
computes when it succeeds (the failure case is an `Env` flag). -/
structure ProviderDealState where
  dealUuid : String
  signedPropCid : String
  createdAt : Nat
  checkpoint : Checkpoint
  checkpointAt : Nat
  isOffline : Bool
  inboundFilePath : String
  transferSize : Nat
deriving DecidableEq, Repr

/-- Shared provider-side state: the deals DB rows, the fund-reservation
ledger (UUID, tagged amount), the storage-reservation ledger (UUID, tagged
bytes), and the set of files present in the staging area. -/
structure PState where
  dealsDB : List ProviderDealState
  fundTags : List (String × Nat)
  storageTags : List (String × Nat)
  stagingFiles : List String
deriving DecidableEq, Repr

/-- Total bytes the storage ledger holds tagged for a UUID. -/
def storageTagged (st : PState) (uuid : String) : Nat :=
  ((st.storageTags.filter (fun x => x.1 == uuid)).map (fun x => x.2)).sum

/-- Total funds the fund ledger holds tagged for a UUID. -/
def fundTagged (st : PState) (uuid : String) : Nat :=
  ((st.fundTags.filter (fun x => x.1 == uuid)).map (fun x => x.2)).sum

/-- Result of `fundManager.UntagFunds` / `storageManager.Untag` as seen by the
caller: success, the `db.ErrNotFound` sentinel, or any other error. -/
inductive UntagResult
  | ok
  | notFound
  | err
deriving DecidableEq, Repr

/-- Modelled from the spec: the FundManager is not under src/, so `UntagFunds`
is modelled from §4.1 — it removes the whole reservation recorded for the
UUID and reports `NotFound` when none exists ("UntagFunds is idempotent:
returning NotFound after a prior untag is not an error at the caller layer").
A `fail` flag stands for an unreachable backing store. -/
def untagFunds (fail : Bool) (st : PState) (uuid : String) : PState × UntagResult :=
  if fail then (st, .err)
  else if st.fundTags.any (fun x => x.1 == uuid) then
    ({ st with fundTags := st.fundTags.filter (fun x => x.1 != uuid) }, .ok)
  else (st, .notFound)

/-- Modelled from the spec: the StorageManager is not under src/, so `Untag`
is modelled from §4.2 — remove the byte reservation for the UUID, `NotFound`
when none exists ("Untag is idempotent"). -/
def untagStorage (fail : Bool) (st : PState) (uuid : String) : PState × UntagResult :=
  if fail then (st, .err)
  else if st.storageTags.any (fun x => x.1 == uuid) then
    ({ st with storageTags := st.storageTags.filter (fun x => x.1 != uuid) }, .ok)
  else (st, .notFound)

/-- Outcome of `fundManager.TagFunds`: success carrying the tagged amount, the
`ErrInsufficientFunds` sentinel, or any other error. -/
inductive TagFundsOutcome
  | ok (amt : Nat)
  | insufficientFunds
  | otherErr
deriving DecidableEq, Repr

/-- Outcome of `storageManager.Tag`: success, the `ErrNoSpaceLeft` sentinel,
or any other error. -/
inductive TagStorageOutcome
  | ok
  | noSpaceLeft
  | otherErr
deriving DecidableEq, Repr

/-- Outcomes of the external calls the acceptance path makes, plus the
wall-clock reading `now`. Boolean fields mark the calls that fail with an
infrastructure error on this run. -/
structure Env where
  now : Nat
  signedPropCidFails : Bool
  propLookupFails : Bool
  uuidLookupFails : Bool
  sealingStatusErr : Bool
  filterResult : Except Unit (Bool × String)
  tagFundsOutcome : TagFundsOutcome
  tagStorageOutcome : TagStorageOutcome
  downloadFilePath : Except Unit String
  insertFails : Bool
  untagFundsFails : Bool
  untagStorageFails : Bool
  emitterFails : Bool
deriving Repr

/-- `acceptError`: severity flag and the reason sent to the client. -/
structure AcceptError where
  isSevereError : Bool
  reason : String
deriving DecidableEq, Repr

/-- One effect performed by the acceptance path or the provider loop,
recorded in order. -/
inductive Event
  | checkPropUnique
  | checkUuidUnique
  | getSealingStatus
  | invokeDealFilter
  | tagFundsEv
  | tagStorageEv
  | allocStagingFile
  | dbInsert (createdAt : Nat) (cp : Checkpoint) (checkpointAt : Nat)
  | untagFundsEv
  | untagStorageEv
  | removeFile (path : String)
  | mkHandler
  | mkEmitter
  | fireDealNew
  | fireDealUpdate
deriving DecidableEq, Repr

/-- The stages of the online acceptance algorithm, in the order
`processDealProposal` runs them. -/
inductive Stage
  | propUnique
  | uuidUnique
  | sealingStatus
  | dealFilter
  | fundsTag
  | storageTag
  | stagingAlloc
  | dbPersist
deriving DecidableEq, Repr

/-- Canonical stage order of the online acceptance algorithm. -/
def canonicalStages : List Stage :=
  [.propUnique, .uuidUnique, .sealingStatus, .dealFilter,
   .fundsTag, .storageTag, .stagingAlloc, .dbPersist]

/-- Project an event onto the acceptance stage it belongs to; cleanup and
pub/sub effects are not stages. -/
def stageTag : Event → Option Stage
  | .checkPropUnique => some .propUnique
  | .checkUuidUnique => some .uuidUnique
  | .getSealingStatus => some .sealingStatus
  | .invokeDealFilter => some .dealFilter
  | .tagFundsEv => some .fundsTag
  | .tagStorageEv => some .storageTag
  | .allocStagingFile => some .stagingAlloc
  | .dbInsert _ _ _ => some .dbPersist
  | _ => none

/-- Result of one acceptance-processing function: the provider state, the
(possibly mutated) deal record, the effect trace, and the `acceptError`
(`none` on success). -/
structure ProcResult where
  state : PState
  deal : ProviderDealState
  events : List Event
  aerr : Option AcceptError
deriving DecidableEq, Repr

/-- Reason string built by `checkDealPropUnique` when the lookup by
signed-proposal CID finds an existing deal `dl`. -/
def propDupReason (dl : ProviderDealState) : String :=
  "deal proposal is identical to deal " ++ dl.dealUuid ++
    " (proposed at " ++ toString dl.createdAt ++ ")"

/-- Reason string built by `checkDealUuidUnique` when the lookup by UUID
finds an existing deal `dl`. -/
def uuidDupReason (dl : ProviderDealState) : String :=
  "deal has the same uuid as deal " ++ dl.dealUuid ++
    " (proposed at " ++ toString dl.createdAt ++ ")"

/-- `Provider.checkDealPropUnique`: compute the signed proposal CID (failure
is severe), look the CID up in the deals DB (`sql.ErrNoRows` means unique,
any other lookup error is severe), and reject non-severely naming the
colliding deal when a row is found. -/
def checkDealPropUnique (env : Env) (db : List ProviderDealState)
    (deal : ProviderDealState) : Option AcceptError :=
  if env.signedPropCidFails then
    some ⟨true, "server error: signed proposal cid"⟩
  else if env.propLookupFails then
    some ⟨true, "server error: lookup by proposal cid"⟩
  else
    match db.find? (fun dl => dl.signedPropCid == deal.signedPropCid) with
    | none => none
    | some dl => some ⟨false, propDupReason dl⟩

/-- `Provider.checkDealUuidUnique`: look the deal UUID up in the deals DB
(`sql.ErrNoRows` means unique, any other lookup error is severe), and reject
non-severely naming the colliding deal when a row is found. -/
def checkDealUuidUnique (env : Env) (db : List ProviderDealState)
    (deal : ProviderDealState) : Option AcceptError :=
  if env.uuidLookupFails then
    some ⟨true, "server error: unique check: lookup by deal uuid"⟩
  else
    match db.find? (fun dl => dl.dealUuid == deal.dealUuid) with
    | none => none
    | some dl => some ⟨false, uuidDupReason dl⟩

/-- The `cleanup` closure of `Provider.processDealProposal`: untag funds
(tolerating `NotFound`), untag storage (tolerating `NotFound`), and remove
the staging file when `deal.InboundFilePath` is non-empty. -/
def cleanupOnline (env : Env) (st : PState) (deal : ProviderDealState) :
    PState × List Event :=
  let st1 := (untagFunds env.untagFundsFails st deal.dealUuid).1
  let st2 := (untagStorage env.untagStorageFails st1 deal.dealUuid).1
  if deal.inboundFilePath != "" then
    ({ st2 with stagingFiles := st2.stagingFiles.erase deal.inboundFilePath },
     [.untagFundsEv, .untagStorageEv, .removeFile deal.inboundFilePath])
  else
    (st2, [.untagFundsEv, .untagStorageEv])

/-- `Provider.processDealProposal`: uniqueness by signed-proposal CID, then
by UUID, then sealing-pipeline status, deal filter, fund tagging, storage
tagging, staging-file allocation, and the DB insert with
`CreatedAt = now`, `Checkpoint = Accepted`, `CheckpointAt = now`. Every
failure from the fund-tagging stage on first runs `cleanup`. -/
def processDealProposal (env : Env) (st : PState) (deal : ProviderDealState) :
    ProcResult :=
  match checkDealPropUnique env st.dealsDB deal with
  | some aerr => ⟨st, deal, [.checkPropUnique], some aerr⟩
  | none =>
  match checkDealUuidUnique env st.dealsDB deal with
  | some aerr => ⟨st, deal, [.checkPropUnique, .checkUuidUnique], some aerr⟩
  | none =>
  if env.sealingStatusErr then
    ⟨st, deal, [.checkPropUnique, .checkUuidUnique, .getSealingStatus],
     some ⟨true, "server error: get sealing status"⟩⟩
  else
  match env.filterResult with
  | .error _ =>
    ⟨st, deal,
     [.checkPropUnique, .checkUuidUnique, .getSealingStatus, .invokeDealFilter],
     some ⟨true, "server error: deal filter error"⟩⟩
  | .ok (accept, reason) =>
  if !accept then
    ⟨st, deal,
     [.checkPropUnique, .checkUuidUnique, .getSealingStatus, .invokeDealFilter],
     some ⟨false, reason⟩⟩
  else
  match env.tagFundsOutcome with
  | .insufficientFunds =>
    let c := cleanupOnline env st deal
    ⟨c.1, deal,
     [.checkPropUnique, .checkUuidUnique, .getSealingStatus, .invokeDealFilter,
      .tagFundsEv] ++ c.2,
     some ⟨false, "server error: provider has insufficient funds to accept deal"⟩⟩
  | .otherErr =>
    let c := cleanupOnline env st deal
    ⟨c.1, deal,
     [.checkPropUnique, .checkUuidUnique, .getSealingStatus, .invokeDealFilter,
      .tagFundsEv] ++ c.2,
     some ⟨true, "server error: tag funds"⟩⟩
  | .ok amt =>
  let st1 : PState := { st with fundTags := (deal.dealUuid, amt) :: st.fundTags }
  match env.tagStorageOutcome with
  | .noSpaceLeft =>
    let c := cleanupOnline env st1 deal
    ⟨c.1, deal,
     [.checkPropUnique, .checkUuidUnique, .getSealingStatus, .invokeDealFilter,
      .tagFundsEv, .tagStorageEv] ++ c.2,
     some ⟨false, "server error: provider has no space left for storage deals"⟩⟩
  | .otherErr =>
    let c := cleanupOnline env st1 deal
    ⟨c.1, deal,
     [.checkPropUnique, .checkUuidUnique, .getSealingStatus, .invokeDealFilter,
      .tagFundsEv, .tagStorageEv] ++ c.2,
     some ⟨true, "server error: tag storage"⟩⟩
  | .ok =>
  let st2 : PState :=
    { st1 with storageTags := (deal.dealUuid, deal.transferSize) :: st1.storageTags }
  match env.downloadFilePath with
  | .error _ =>
    let c := cleanupOnline env st2 deal
    ⟨c.1, deal,
     [.checkPropUnique, .checkUuidUnique, .getSealingStatus, .invokeDealFilter,
      .tagFundsEv, .tagStorageEv, .allocStagingFile] ++ c.2,
     some ⟨true, "server error: creating download staging file"⟩⟩
  | .ok path =>
  let deal1 : ProviderDealState := { deal with inboundFilePath := path }
  let st3 : PState := { st2 with stagingFiles := path :: st2.stagingFiles }
  let deal2 : ProviderDealState :=
    { deal1 with createdAt := env.now, checkpoint := .Accepted, checkpointAt := env.now }
  if env.insertFails then
    let c := cleanupOnline env st3 deal2
    ⟨c.1, deal2,
     [.checkPropUnique, .checkUuidUnique, .getSealingStatus, .invokeDealFilter,
      .tagFundsEv, .tagStorageEv, .allocStagingFile] ++ c.2,
     some ⟨true, "server error: save to db"⟩⟩
  else
    ⟨{ st3 with dealsDB := st3.dealsDB ++ [deal2] }, deal2,
     [.checkPropUnique, .checkUuidUnique, .getSealingStatus, .invokeDealFilter,
      .tagFundsEv, .tagStorageEv, .allocStagingFile,
      .dbInsert env.now .Accepted env.now],
     none⟩

/-- `Provider.processOfflineDealProposal`: both uniqueness checks, then the
DB insert with `CreatedAt = now`, `Checkpoint = Accepted`,
`CheckpointAt = now`, then handler-with-stateful-emitter creation, then the
`DealNew` event and a deal-update event with the current state. No funds or
storage are tagged and no staging file is allocated. -/
def processOfflineDealProposal (env : Env) (st : PState)
    (ds : ProviderDealState) : ProcResult :=
  match checkDealPropUnique env st.dealsDB ds with
  | some aerr => ⟨st, ds, [.checkPropUnique], some aerr⟩
  | none =>
  match checkDealUuidUnique env st.dealsDB ds with
  | some aerr => ⟨st, ds, [.checkPropUnique, .checkUuidUnique], some aerr⟩
  | none =>
  let ds1 : ProviderDealState :=
    { ds with createdAt := env.now, checkpoint := .Accepted, checkpointAt := env.now }
  if env.insertFails then
    ⟨st, ds1, [.checkPropUnique, .checkUuidUnique], some ⟨true, "server error: save to db"⟩⟩
  else
  let st1 : PState := { st with dealsDB := st.dealsDB ++ [ds1] }
  if env.emitterFails then
    ⟨st1, ds1,
     [.checkPropUnique, .checkUuidUnique, .dbInsert env.now .Accepted env.now,
      .mkHandler, .mkEmitter],
     some ⟨true, "server error: setup pubsub"⟩⟩
  else
    ⟨st1, ds1,
     [.checkPropUnique, .checkUuidUnique, .dbInsert env.now .Accepted env.now,
      .mkHandler, .mkEmitter, .fireDealNew, .fireDealUpdate],
     none⟩

/-- `Provider.processImportOfflineDealData`: tag funds only — on failure
untag funds (tolerating `NotFound`) and reject with the same severity
classification as the online fund-tagging stage. No uniqueness checks, no
sealing-status query, no filter, no storage tagging. -/
def processImportOfflineDealData (env : Env) (st : PState)
    (deal : ProviderDealState) : ProcResult :=
  match env.tagFundsOutcome with
  | .insufficientFunds =>
    let st1 := (untagFunds env.untagFundsFails st deal.dealUuid).1
    ⟨st1, deal, [.tagFundsEv, .untagFundsEv],
     some ⟨false, "server error: provider has insufficient funds to accept deal"⟩⟩
  | .otherErr =>
    let st1 := (untagFunds env.untagFundsFails st deal.dealUuid).1
    ⟨st1, deal, [.tagFundsEv, .untagFundsEv],
     some ⟨true, "server error: tag funds"⟩⟩
  | .ok amt =>
    ⟨{ st with fundTags := (deal.dealUuid, amt) :: st.fundTags }, deal,
     [.tagFundsEv], none⟩

/-- One externally visible action of the provider loop while serving an
`acceptDealChan` request, in the order the loop performs it. -/
inductive LoopAction
  | logErrorAct
  | logInfoAct
  | spawnFiber
  | reply (accepted : Bool) (reason : String)
deriving DecidableEq, Repr

/-- Result of serving one accept request: provider state, processed deal,
internal effect trace, `acceptError`, and the ordered loop actions. -/
structure AcceptOutcome where
  state : PState
  deal : ProviderDealState
  events : List Event
  aerr : Option AcceptError
  actions : List LoopAction
deriving DecidableEq, Repr

/-- Common tail of the `acceptDealChan` case of `Provider.loop`: a severe
error is logged at error level and rejected, a non-severe error is logged at
info level and rejected, and on success the loop starts the deal go-routine
(`go ... doDeal`) and then sends the accepted response on `rsp`. -/
def finishAccept (r : ProcResult) : AcceptOutcome :=
  match r.aerr with
  | some a =>
    if a.isSevereError then
      ⟨r.state, r.deal, r.events, some a, [.logErrorAct, .reply false a.reason]⟩
    else
      ⟨r.state, r.deal, r.events, some a, [.logInfoAct, .reply false a.reason]⟩
  | none =>
    ⟨r.state, r.deal, r.events, none, [.spawnFiber, .reply true ""]⟩

/-- The `acceptDealChan` case of `Provider.loop`: offline import requests go
to `processImportOfflineDealData`, offline proposals go to
`processOfflineDealProposal` (on success the loop replies accepted and
continues without spawning a fiber), and online proposals go to
`processDealProposal`; all error paths and the online success path share the
common tail `finishAccept`. -/
def handleAccept (env : Env) (st : PState) (deal : ProviderDealState)
    (isImport : Bool) : AcceptOutcome :=
  if deal.isOffline then
    if isImport then
      finishAccept (processImportOfflineDealData env st deal)
    else
      let r := processOfflineDealProposal env st deal
      match r.aerr with
      | none => ⟨r.state, r.deal, r.events, none, [.reply true ""]⟩
      | some _ => finishAccept r
  else
    finishAccept (processDealProposal env st deal)

/-- Result of serving one release message: provider state, whether the
`done` channel was signalled, and whether an error was logged at error
level. -/
structure ReleaseOutcome where
  state : PState
  doneSignalled : Bool
  loggedError : Bool
deriving DecidableEq, Repr

/-- The `storageSpaceChan` case of `Provider.loop`: untag storage for the
deal's UUID, log an error only when the untag fails with something other
than `ErrNotFound`, and close the `done` channel. -/
def handleStorageRelease (fail : Bool) (st : PState) (uuid : String) :
    ReleaseOutcome :=
  let r := untagStorage fail st uuid
  ⟨r.1, true, r.2 == .err⟩

/-- The `publishedDealChan` case of `Provider.loop`: untag funds for the
deal's UUID, log an error on any untag error (`ErrNotFound` is not
special-cased here), and signal the `done` channel. -/
def handlePublish (fail : Bool) (st : PState) (uuid : String) :
    ReleaseOutcome :=
  let r := untagFunds fail st uuid
  ⟨r.1, true, !(r.2 == .ok)⟩

/-- The `finishedDealChan` case of `Provider.loop`: untag funds, then untag
storage (each logging an error only when it fails with something other than
`ErrNotFound`), then signal the `done` channel. -/
def handleFinish (failFunds failStorage : Bool) (st : PState) (uuid : String) :
    ReleaseOutcome :=
  let rf := untagFunds failFunds st uuid
  let rs := untagStorage failStorage rf.1 uuid
  ⟨rs.1, true, rf.2 == .err || rs.2 == .err⟩

/-! ### Concrete instances used to exercise the model -/

/-- An environment where every external call succeeds. -/
def envOK : Env :=
  { now := 100, signedPropCidFails := false, propLookupFails := false,
    uuidLookupFails := false, sealingStatusErr := false,
    filterResult := .ok (true, ""), tagFundsOutcome := .ok 5,
    tagStorageOutcome := .ok, downloadFilePath := .ok "/staging/d1.car",
    insertFails := false, untagFundsFails := false, untagStorageFails := false,
    emitterFails := false }

/-- `envOK` with fund tagging failing with `ErrInsufficientFunds`. -/
def envNoFunds : Env := { envOK with tagFundsOutcome := .insufficientFunds }

/-- An empty provider state. -/
def stEmpty : PState := ⟨[], [], [], []⟩

/-- A fresh online deal proposal. -/
def deal1 : ProviderDealState :=
  { dealUuid := "d1", signedPropCid := "cid1", createdAt := 0,
    checkpoint := .Accepted, checkpointAt := 0, isOffline := false,
    inboundFilePath := "", transferSize := 60 }

/-- A fresh offline deal proposal. -/
def deal2 : ProviderDealState :=
  { deal1 with dealUuid := "d2", signedPropCid := "cid2", isOffline := true }

/-- A provider state whose DB already holds `deal1`. -/
def stWithDeal1 : PState := ⟨[deal1], [], [], []⟩

/-! ### Helper lemmas -/

theorem untagFunds_dealsDB (f : Bool) (st : PState) (u : String) :
    (untagFunds f st u).1.dealsDB = st.dealsDB := by
  unfold untagFunds
  split
  · rfl
  · split <;> rfl

theorem untagFunds_storageTags (f : Bool) (st : PState) (u : String) :
    (untagFunds f st u).1.storageTags = st.storageTags := by
  unfold untagFunds
  split
  · rfl
  · split <;> rfl

theorem untagFunds_stagingFiles (f : Bool) (st : PState) (u : String) :
    (untagFunds f st u).1.stagingFiles = st.stagingFiles := by
  unfold untagFunds
  split
  · rfl
  · split <;> rfl

theorem untagStorage_dealsDB (f : Bool) (st : PState) (u : String) :
    (untagStorage f st u).1.dealsDB = st.dealsDB := by
  unfold untagStorage
  split
  · rfl
  · split <;> rfl

theorem untagStorage_fundTags (f : Bool) (st : PState) (u : String) :
    (untagStorage f st u).1.fundTags = st.fundTags := by
  unfold untagStorage
  split
  · rfl
  · split <;> rfl

theorem untagStorage_stagingFiles (f : Bool) (st : PState) (u : String) :
    (untagStorage f st u).1.stagingFiles = st.stagingFiles := by
  unfold untagStorage
  split
  · rfl
  · split <;> rfl

theorem fundTagged_untagFunds (st : PState) (u : String) :
    fundTagged (untagFunds false st u).1 u = 0 := by
  unfold untagFunds fundTagged
  by_cases h : st.fundTags.any (fun x => x.1 == u) = true
  · simp only [h, Bool.false_eq_true, if_false, if_true]
    have : (st.fundTags.filter (fun x => x.1 != u)).filter (fun x => x.1 == u) = [] := by
      refine List.filter_eq_nil_iff.mpr ?_
      intro a ha
      have := (List.mem_filter.mp ha).2
      simp only [bne_iff_ne, ne_eq] at this
      simp [this]
    simp [this]
  · have hf : st.fundTags.any (fun x => x.1 == u) = false := by
      revert h
      cases st.fundTags.any (fun x => x.1 == u) <;> simp
    simp only [hf, Bool.false_eq_true, if_false]
    have : st.fundTags.filter (fun x => x.1 == u) = [] := by
      refine List.filter_eq_nil_iff.mpr ?_
      intro a ha hcontra
      exact (List.any_eq_false.mp hf a ha) hcontra
    simp [this]

theorem storageTagged_untagStorage (st : PState) (u : String) :
    storageTagged (untagStorage false st u).1 u = 0 := by
  unfold untagStorage storageTagged
  by_cases h : st.storageTags.any (fun x => x.1 == u) = true
  · simp only [h, Bool.false_eq_true, if_false, if_true]
    have : (st.storageTags.filter (fun x => x.1 != u)).filter (fun x => x.1 == u) = [] := by
      refine List.filter_eq_nil_iff.mpr ?_
      intro a ha
      have := (List.mem_filter.mp ha).2
      simp only [bne_iff_ne, ne_eq] at this
      simp [this]
    simp [this]
  · have hf : st.storageTags.any (fun x => x.1 == u) = false := by
      revert h
      cases st.storageTags.any (fun x => x.1 == u) <;> simp
    simp only [hf, Bool.false_eq_true, if_false]
    have : st.storageTags.filter (fun x => x.1 == u) = [] := by
      refine List.filter_eq_nil_iff.mpr ?_
      intro a ha hcontra
      exact (List.any_eq_false.mp hf a ha) hcontra
    simp [this]

theorem untagFunds_fresh (st : PState) (u : String)
    (h : ∀ x ∈ st.fundTags, x.1 ≠ u) : (untagFunds false st u).1 = st := by
  unfold untagFunds
  have hf : st.fundTags.any (fun x => x.1 == u) = false := by
    refine List.any_eq_false.mpr ?_
    intro a ha
    simpa using h a ha
  simp [hf]

theorem untagStorage_fresh (st : PState) (u : String)
    (h : ∀ x ∈ st.storageTags, x.1 ≠ u) : (untagStorage false st u).1 = st := by
  unfold untagStorage
  have hf : st.storageTags.any (fun x => x.1 == u) = false := by
    refine List.any_eq_false.mpr ?_
    intro a ha
    simpa using h a ha
  simp [hf]

theorem untagFunds_tagged_fresh (st : PState) (u : String) (amt : Nat)
    (h : ∀ x ∈ st.fundTags, x.1 ≠ u) :
    (untagFunds false { st with fundTags := (u, amt) :: st.fundTags } u).1 = st := by
  unfold untagFunds
  have hany : ((u, amt) :: st.fundTags).any (fun x => x.1 == u) = true := by
    simp
  simp only [hany, Bool.false_eq_true, if_false, if_true]
  have hfil : ((u, amt) :: st.fundTags).filter (fun x => x.1 != u) = st.fundTags := by
    rw [List.filter_cons]
    simp only [bne_self_eq_false, Bool.false_eq_true, if_false]
    refine List.filter_eq_self.mpr ?_
    intro a ha
    simpa using h a ha
  simp [hfil]

theorem untagStorage_tagged_fresh (st : PState) (u : String) (sz : Nat)
    (h : ∀ x ∈ st.storageTags, x.1 ≠ u) :
    (untagStorage false { st with storageTags := (u, sz) :: st.storageTags } u).1 = st := by
  unfold untagStorage
  have hany : ((u, sz) :: st.storageTags).any (fun x => x.1 == u) = true := by
    simp
  simp only [hany, Bool.false_eq_true, if_false, if_true]
  have hfil : ((u, sz) :: st.storageTags).filter (fun x => x.1 != u) = st.storageTags := by
    rw [List.filter_cons]
    simp only [bne_self_eq_false, Bool.false_eq_true, if_false]
    refine List.filter_eq_self.mpr ?_
    intro a ha
    simpa using h a ha
  simp [hfil]

theorem finishAccept_events (r : ProcResult) : (finishAccept r).events = r.events := by
  unfold finishAccept
  split <;> rename_i heq
  · split <;> simp [heq]
  · simp [heq]

theorem finishAccept_aerr (r : ProcResult) : (finishAccept r).aerr = r.aerr := by
  unfold finishAccept
  split <;> rename_i heq
  · split <;> simp [heq]
  · simp [heq]

theorem finishAccept_state (r : ProcResult) : (finishAccept r).state = r.state := by
  unfold finishAccept
  split <;> rename_i heq
  · split <;> simp [heq]
  · simp [heq]

theorem finishAccept_deal (r : ProcResult) : (finishAccept r).deal = r.deal := by
  unfold finishAccept
  split <;> rename_i heq
  · split <;> simp [heq]
  · simp [heq]

theorem cleanupOnline_stages (env : Env) (st : PState) (deal : ProviderDealState) :
    (cleanupOnline env st deal).2.filterMap stageTag = [] := by
  unfold cleanupOnline
  split <;> rfl

theorem cleanupOnline_no_insert (env : Env) (st : PState) (deal : ProviderDealState)
    (c : Nat) (cp : Checkpoint) (ca : Nat) :
    Event.dbInsert c cp ca ∉ (cleanupOnline env st deal).2 := by
  unfold cleanupOnline
  split <;> simp

/-! ### C1: stage order of the online acceptance algorithm -/

/-- Claim C1: For every online deal proposal (`IsOffline = false`), the
acceptance algorithm runs its stages in exactly the canonical order —
uniqueness by signed-proposal CID, uniqueness by deal UUID, sealing-status
query, policy filter, fund tagging, storage tagging, staging-file
allocation, DB insert with `CreatedAt = now`, `Checkpoint = Accepted`,
`CheckpointAt = now` — the stage trace is always a prefix of that order, the
full order runs exactly when acceptance succeeds, and after a failing stage
no later stage runs. -/
theorem processDealProposal_stage_order (env : Env) (st : PState)
    (deal : ProviderDealState) (imp : Bool) (hoff : deal.isOffline = false) :
    ∃ k, k ≤ 8 ∧
      (handleAccept env st deal imp).events.filterMap stageTag = canonicalStages.take k ∧
      ((handleAccept env st deal imp).aerr = none ↔ k = 8) ∧
      (∀ c cp ca, Event.dbInsert c cp ca ∈ (handleAccept env st deal imp).events →
        c = env.now ∧ cp = Checkpoint.Accepted ∧ ca = env.now) := by
  have hev : (handleAccept env st deal imp).events = (processDealProposal env st deal).events := by
    simp [handleAccept, hoff, finishAccept_events]
  have herr : (handleAccept env st deal imp).aerr = (processDealProposal env st deal).aerr := by
    simp [handleAccept, hoff, finishAccept_aerr]
  rw [hev, herr]
  unfold processDealProposal
  cases h1 : checkDealPropUnique env st.dealsDB deal with
  | some a => exact ⟨1, by omega, by rfl, by simp, by simp⟩
  | none =>
  cases h2 : checkDealUuidUnique env st.dealsDB deal with
  | some a => exact ⟨2, by omega, by rfl, by simp, by simp⟩
  | none =>
  cases h3 : env.sealingStatusErr with
  | true => exact ⟨3, by omega, by rfl, by simp, by simp⟩
  | false =>
  cases h4 : env.filterResult with
  | error e => exact ⟨4, by omega, by rfl, by simp, by simp⟩
  | ok p =>
  obtain ⟨accept, reason⟩ := p
  cases accept with
  | false => exact ⟨4, by omega, by rfl, by simp, by simp⟩
  | true =>
  cases h5 : env.tagFundsOutcome with
  | insufficientFunds =>
    refine ⟨5, by omega, ?_, by simp, ?_⟩
    · show List.filterMap stageTag
        ([.checkPropUnique, .checkUuidUnique, .getSealingStatus, .invokeDealFilter,
          .tagFundsEv] ++ (cleanupOnline env st deal).2) = canonicalStages.take 5
      rw [List.filterMap_append, cleanupOnline_stages]
      decide
    · intro c cp ca hmem
      rcases List.mem_append.mp hmem with h | h
      · simp at h
      · exact absurd h (cleanupOnline_no_insert env st deal c cp ca)
  | otherErr =>
    refine ⟨5, by omega, ?_, by simp, ?_⟩
    · show List.filterMap stageTag
        ([.checkPropUnique, .checkUuidUnique, .getSealingStatus, .invokeDealFilter,
          .tagFundsEv] ++ (cleanupOnline env st deal).2) = canonicalStages.take 5
      rw [List.filterMap_append, cleanupOnline_stages]
      decide
    · intro c cp ca hmem
      rcases List.mem_append.mp hmem with h | h
      · simp at h
      · exact absurd h (cleanupOnline_no_insert env st deal c cp ca)
  | ok amt =>
  cases h6 : env.tagStorageOutcome with
  | noSpaceLeft =>
    refine ⟨6, by omega, ?_, by simp, ?_⟩
    · show List.filterMap stageTag
        ([.checkPropUnique, .checkUuidUnique, .getSealingStatus, .invokeDealFilter,
          .tagFundsEv, .tagStorageEv] ++ (cleanupOnline env _ deal).2) = canonicalStages.take 6
      rw [List.filterMap_append, cleanupOnline_stages]
      decide
    · intro c cp ca hmem
      rcases List.mem_append.mp hmem with h | h
      · simp at h
      · exact absurd h (cleanupOnline_no_insert env _ deal c cp ca)
  | otherErr =>
    refine ⟨6, by omega, ?_, by simp, ?_⟩
    · show List.filterMap stageTag
        ([.checkPropUnique, .checkUuidUnique, .getSealingStatus, .invokeDealFilter,
          .tagFundsEv, .tagStorageEv] ++ (cleanupOnline env _ deal).2) = canonicalStages.take 6
      rw [List.filterMap_append, cleanupOnline_stages]
      decide
    · intro c cp ca hmem
      rcases List.mem_append.mp hmem with h | h
      · simp at h
      · exact absurd h (cleanupOnline_no_insert env _ deal c cp ca)
  | ok =>
  cases h7 : env.downloadFilePath with
  | error e =>
    refine ⟨7, by omega, ?_, by simp, ?_⟩
    · show List.filterMap stageTag
        ([.checkPropUnique, .checkUuidUnique, .getSealingStatus, .invokeDealFilter,
          .tagFundsEv, .tagStorageEv, .allocStagingFile] ++ (cleanupOnline env _ deal).2) =
        canonicalStages.take 7
      rw [List.filterMap_append, cleanupOnline_stages]
      decide
    · intro c cp ca hmem
      rcases List.mem_append.mp hmem with h | h
      · simp at h
      · exact absurd h (cleanupOnline_no_insert env _ deal c cp ca)
  | ok path =>
  cases h8 : env.insertFails with
  | true =>
    refine ⟨7, by omega, ?_, by simp, ?_⟩
    · show List.filterMap stageTag
        ([.checkPropUnique, .checkUuidUnique, .getSealingStatus, .invokeDealFilter,
          .tagFundsEv, .tagStorageEv, .allocStagingFile] ++ (cleanupOnline env _ _).2) =
        canonicalStages.take 7
      rw [List.filterMap_append, cleanupOnline_stages]
      decide
    · intro c cp ca hmem
      rcases List.mem_append.mp hmem with h | h
      · simp at h
      · exact absurd h (cleanupOnline_no_insert env _ _ c cp ca)
  | false =>
    refine ⟨8, by omega, rfl, by simp, ?_⟩
    intro c cp ca hmem
    simp at hmem
    exact hmem


/-- Witness for `processDealProposal_stage_order` at a fully successful run
of a concrete online proposal. -/
theorem processDealProposal_stage_order_witness :
    ∃ k, k ≤ 8 ∧
      (handleAccept envOK stEmpty deal1 false).events.filterMap stageTag =
        canonicalStages.take k ∧
      ((handleAccept envOK stEmpty deal1 false).aerr = none ↔ k = 8) ∧
      (∀ c cp ca, Event.dbInsert c cp ca ∈ (handleAccept envOK stEmpty deal1 false).events →
        c = envOK.now ∧ cp = Checkpoint.Accepted ∧ ca = envOK.now) :=
  processDealProposal_stage_order envOK stEmpty deal1 false rfl

/-! ### C2: uniqueness checks -/

/-- Claim C2: When the signed-proposal-CID computation succeeds: a hit in the
deals DB on the signed-proposal CID (resp. the deal UUID) makes
`checkDealPropUnique` (resp. `checkDealUuidUnique`) reject non-severely with
a reason that contains the colliding deal's UUID; a `NotFound` lookup result
makes the check pass (`none`); any other lookup error makes it reject
severely. -/
theorem checkDealUnique_spec (env : Env) (db : List ProviderDealState)
    (deal dl : ProviderDealState) (hcid : env.signedPropCidFails = false) :
    (env.propLookupFails = false →
      db.find? (fun d => d.signedPropCid == deal.signedPropCid) = some dl →
      checkDealPropUnique env db deal = some ⟨false, propDupReason dl⟩ ∧
        ∃ l r, propDupReason dl = l ++ dl.dealUuid ++ r) ∧
    (env.propLookupFails = false →
      db.find? (fun d => d.signedPropCid == deal.signedPropCid) = none →
      checkDealPropUnique env db deal = none) ∧
    (env.propLookupFails = true →
      checkDealPropUnique env db deal =
        some ⟨true, "server error: lookup by proposal cid"⟩) ∧
    (env.uuidLookupFails = false →
      db.find? (fun d => d.dealUuid == deal.dealUuid) = some dl →
      checkDealUuidUnique env db deal = some ⟨false, uuidDupReason dl⟩ ∧
        ∃ l r, uuidDupReason dl = l ++ dl.dealUuid ++ r) ∧
    (env.uuidLookupFails = false →
      db.find? (fun d => d.dealUuid == deal.dealUuid) = none →
      checkDealUuidUnique env db deal = none) ∧
    (env.uuidLookupFails = true →
      checkDealUuidUnique env db deal =
        some ⟨true, "server error: unique check: lookup by deal uuid"⟩) := by
  refine ⟨?_, ?_, ?_, ?_, ?_, ?_⟩
  · intro hpl hfind
    refine ⟨by simp [checkDealPropUnique, hcid, hpl, hfind], ?_⟩
    exact ⟨"deal proposal is identical to deal ",
      " (proposed at " ++ toString dl.createdAt ++ ")",
      by simp [propDupReason, String.append_assoc]⟩
  · intro hpl hfind
    simp [checkDealPropUnique, hcid, hpl, hfind]
  · intro hpl
    simp [checkDealPropUnique, hcid, hpl]
  · intro hul hfind
    refine ⟨by simp [checkDealUuidUnique, hul, hfind], ?_⟩
    exact ⟨"deal has the same uuid as deal ",
      " (proposed at " ++ toString dl.createdAt ++ ")",
      by simp [uuidDupReason, String.append_assoc]⟩
  · intro hul hfind
    simp [checkDealUuidUnique, hul, hfind]
  · intro hul
    simp [checkDealUuidUnique, hul]

/-- Witness for `checkDealUnique_spec` against a DB that already holds
`deal1`, probed with a proposal that reuses its CID and UUID. -/
theorem checkDealUnique_spec_witness :
    (envOK.propLookupFails = false →
      [deal1].find? (fun d => d.signedPropCid == deal1.signedPropCid) = some deal1 →
      checkDealPropUnique envOK [deal1] deal1 = some ⟨false, propDupReason deal1⟩ ∧
        ∃ l r, propDupReason deal1 = l ++ deal1.dealUuid ++ r) ∧
    (envOK.propLookupFails = false →
      [deal1].find? (fun d => d.signedPropCid == deal1.signedPropCid) = none →
      checkDealPropUnique envOK [deal1] deal1 = none) ∧
    (envOK.propLookupFails = true →
      checkDealPropUnique envOK [deal1] deal1 =
        some ⟨true, "server error: lookup by proposal cid"⟩) ∧
    (envOK.uuidLookupFails = false →
      [deal1].find? (fun d => d.dealUuid == deal1.dealUuid) = some deal1 →
      checkDealUuidUnique envOK [deal1] deal1 = some ⟨false, uuidDupReason deal1⟩ ∧
        ∃ l r, uuidDupReason deal1 = l ++ deal1.dealUuid ++ r) ∧
    (envOK.uuidLookupFails = false →
      [deal1].find? (fun d => d.dealUuid == deal1.dealUuid) = none →
      checkDealUuidUnique envOK [deal1] deal1 = none) ∧
    (envOK.uuidLookupFails = true →
      checkDealUuidUnique envOK [deal1] deal1 =
        some ⟨true, "server error: unique check: lookup by deal uuid"⟩) :=
  checkDealUnique_spec envOK [deal1] deal1 deal1 rfl

/-! ### C9: reply and fiber-spawn order on online success -/

/-- Claim C9, counterexample: On a successfully accepted online deal the loop's
action sequence is not reply-then-spawn: at a concrete successful acceptance
the recorded order differs from
`[LoopAction.reply true "", LoopAction.spawnFiber]`. -/
theorem loop_reply_then_spawn_cex :
    (handleAccept envOK stEmpty deal1 false).aerr = none ∧
    (handleAccept envOK stEmpty deal1 false).actions ≠
      [LoopAction.reply true "", LoopAction.spawnFiber] := by
  constructor
  · rfl
  · decide

/-- Claim C9 as amended: For every successfully accepted online deal, the loop
starts the deal go-routine (`go ... doDeal`) first and then sends the
accepted response to the client, in that order. -/
theorem loop_spawn_then_reply (env : Env) (st : PState)
    (deal : ProviderDealState) (imp : Bool) (hoff : deal.isOffline = false)
    (hsucc : (processDealProposal env st deal).aerr = none) :
    (handleAccept env st deal imp).actions =
      [LoopAction.spawnFiber, LoopAction.reply true ""] := by
  simp [handleAccept, hoff, finishAccept, hsucc]

/-- Witness for `loop_spawn_then_reply` at a concrete successful online
acceptance. -/
theorem loop_spawn_then_reply_witness :
    (handleAccept envOK stEmpty deal1 false).actions =
      [LoopAction.spawnFiber, LoopAction.reply true ""] :=
  loop_spawn_then_reply envOK stEmpty deal1 false rfl rfl



/-! ### Further cleanup lemmas -/

theorem fundTagged_congr (st1 st2 : PState) (u : String)
    (h : st1.fundTags = st2.fundTags) : fundTagged st1 u = fundTagged st2 u := by
  unfold fundTagged
  rw [h]

theorem storageTagged_congr (st1 st2 : PState) (u : String)
    (h : st1.storageTags = st2.storageTags) :
    storageTagged st1 u = storageTagged st2 u := by
  unfold storageTagged
  rw [h]

theorem cleanupOnline_dealsDB (env : Env) (st : PState)
    (deal : ProviderDealState) :
    (cleanupOnline env st deal).1.dealsDB = st.dealsDB := by
  unfold cleanupOnline
  split <;> simp [untagStorage_dealsDB, untagFunds_dealsDB]

theorem cleanupOnline_fundTagged (env : Env) (st : PState)
    (deal : ProviderDealState) (hu1 : env.untagFundsFails = false)
    (hu2 : env.untagStorageFails = false) :
    fundTagged (cleanupOnline env st deal).1 deal.dealUuid = 0 := by
  unfold cleanupOnline
  rw [hu1, hu2]
  have hbase :
      fundTagged (untagStorage false (untagFunds false st deal.dealUuid).1 deal.dealUuid).1
        deal.dealUuid = 0 := by
    rw [fundTagged_congr _ (untagFunds false st deal.dealUuid).1 _
      (untagStorage_fundTags false _ _)]
    exact fundTagged_untagFunds st deal.dealUuid
  split
  · exact hbase
  · exact hbase

theorem cleanupOnline_storageTagged (env : Env) (st : PState)
    (deal : ProviderDealState) (hu1 : env.untagFundsFails = false)
    (hu2 : env.untagStorageFails = false) :
    storageTagged (cleanupOnline env st deal).1 deal.dealUuid = 0 := by
  unfold cleanupOnline
  rw [hu1, hu2]
  have hbase :
      storageTagged (untagStorage false (untagFunds false st deal.dealUuid).1 deal.dealUuid).1
        deal.dealUuid = 0 :=
    storageTagged_untagStorage _ _
  split
  · exact hbase
  · exact hbase

theorem cleanupOnline_stagingFiles_empty (env : Env) (st : PState)
    (deal : ProviderDealState) (hin : deal.inboundFilePath = "") :
    (cleanupOnline env st deal).1.stagingFiles = st.stagingFiles := by
  unfold cleanupOnline
  simp [hin, untagStorage_stagingFiles, untagFunds_stagingFiles]

/-! ### C3: insufficient funds at the fund-tagging stage -/

/-- Claim C3, counterexample: At a concrete proposal failing fund tagging with
`ErrInsufficientFunds`, the client-visible reason is the code's string
"server error: provider has insufficient funds to accept deal", which is not
the literal string "insufficient funds". -/
theorem insufficientFunds_reason_cex :
    (processDealProposal envNoFunds stEmpty deal1).aerr =
      some ⟨false, "server error: provider has insufficient funds to accept deal"⟩ ∧
    "server error: provider has insufficient funds to accept deal" ≠
      "insufficient funds" := by
  constructor
  · rfl
  · decide

/-- Claim C3 as amended: For every proposal whose fund tagging fails with
`InsufficientFunds`, the rejection is non-severe, the client-visible reason
is "server error: provider has insufficient funds to accept deal" (naming
insufficient funds), no DB row is inserted, no fund or storage reservation
remains tagged for the deal's UUID, and the staging area is unchanged; any
other fund-tagging error yields a severe rejection. -/
theorem insufficientFunds_rejection (env : Env) (st : PState)
    (deal : ProviderDealState)
    (h1 : checkDealPropUnique env st.dealsDB deal = none)
    (h2 : checkDealUuidUnique env st.dealsDB deal = none)
    (h3 : env.sealingStatusErr = false) (fr : String)
    (hfr : env.filterResult = Except.ok (true, fr))
    (hu1 : env.untagFundsFails = false) (hu2 : env.untagStorageFails = false)
    (hin : deal.inboundFilePath = "") :
    (env.tagFundsOutcome = TagFundsOutcome.insufficientFunds →
      (processDealProposal env st deal).aerr =
        some ⟨false, "server error: provider has insufficient funds to accept deal"⟩ ∧
      (processDealProposal env st deal).state.dealsDB = st.dealsDB ∧
      fundTagged (processDealProposal env st deal).state deal.dealUuid = 0 ∧
      storageTagged (processDealProposal env st deal).state deal.dealUuid = 0 ∧
      (processDealProposal env st deal).state.stagingFiles = st.stagingFiles) ∧
    (env.tagFundsOutcome = TagFundsOutcome.otherErr →
      (processDealProposal env st deal).aerr =
        some ⟨true, "server error: tag funds"⟩) := by
  constructor
  · intro h5
    have hres : processDealProposal env st deal =
        ⟨(cleanupOnline env st deal).1, deal,
         [.checkPropUnique, .checkUuidUnique, .getSealingStatus, .invokeDealFilter,
          .tagFundsEv] ++ (cleanupOnline env st deal).2,
         some ⟨false, "server error: provider has insufficient funds to accept deal"⟩⟩ := by
      simp [processDealProposal, h1, h2, h3, hfr, h5]
    rw [hres]
    exact ⟨rfl, cleanupOnline_dealsDB env st deal,
      cleanupOnline_fundTagged env st deal hu1 hu2,
      cleanupOnline_storageTagged env st deal hu1 hu2,
      cleanupOnline_stagingFiles_empty env st deal hin⟩
  · intro h5
    simp [processDealProposal, h1, h2, h3, hfr, h5]

/-- Witness for `insufficientFunds_rejection` at a concrete proposal with
fund tagging failing with `ErrInsufficientFunds`. -/
theorem insufficientFunds_rejection_witness :
    (envNoFunds.tagFundsOutcome = TagFundsOutcome.insufficientFunds →
      (processDealProposal envNoFunds stEmpty deal1).aerr =
        some ⟨false, "server error: provider has insufficient funds to accept deal"⟩ ∧
      (processDealProposal envNoFunds stEmpty deal1).state.dealsDB = stEmpty.dealsDB ∧
      fundTagged (processDealProposal envNoFunds stEmpty deal1).state deal1.dealUuid = 0 ∧
      storageTagged (processDealProposal envNoFunds stEmpty deal1).state deal1.dealUuid = 0 ∧
      (processDealProposal envNoFunds stEmpty deal1).state.stagingFiles =
        stEmpty.stagingFiles) ∧
    (envNoFunds.tagFundsOutcome = TagFundsOutcome.otherErr →
      (processDealProposal envNoFunds stEmpty deal1).aerr =
        some ⟨true, "server error: tag funds"⟩) :=
  insufficientFunds_rejection envNoFunds stEmpty deal1 rfl rfl rfl "" rfl rfl rfl rfl



/-! ### Cleanup leaves the ledgers unchanged on fresh deals -/

theorem cleanupOnline_events_mem (env : Env) (st : PState)
    (deal : ProviderDealState) :
    Event.untagFundsEv ∈ (cleanupOnline env st deal).2 ∧
    Event.untagStorageEv ∈ (cleanupOnline env st deal).2 := by
  unfold cleanupOnline
  split <;> simp

theorem cleanupOnline_events_removeFile (env : Env) (st : PState)
    (deal : ProviderDealState) (h : deal.inboundFilePath ≠ "") :
    Event.removeFile deal.inboundFilePath ∈ (cleanupOnline env st deal).2 := by
  unfold cleanupOnline
  simp [h]

theorem cleanupOnline_id (env : Env) (st : PState) (deal : ProviderDealState)
    (hu1 : env.untagFundsFails = false) (hu2 : env.untagStorageFails = false)
    (hf : ∀ x ∈ st.fundTags, x.1 ≠ deal.dealUuid)
    (hs : ∀ x ∈ st.storageTags, x.1 ≠ deal.dealUuid)
    (hin : deal.inboundFilePath = "") :
    (cleanupOnline env st deal).1 = st := by
  simp only [cleanupOnline, hu1, hu2, untagFunds_fresh st deal.dealUuid hf,
    untagStorage_fresh st deal.dealUuid hs, hin]
  simp

theorem cleanupOnline_id_fundtag (env : Env) (st : PState)
    (deal : ProviderDealState) (amt : Nat)
    (hu1 : env.untagFundsFails = false) (hu2 : env.untagStorageFails = false)
    (hf : ∀ x ∈ st.fundTags, x.1 ≠ deal.dealUuid)
    (hs : ∀ x ∈ st.storageTags, x.1 ≠ deal.dealUuid)
    (hin : deal.inboundFilePath = "") :
    (cleanupOnline env { st with fundTags := (deal.dealUuid, amt) :: st.fundTags }
      deal).1 = st := by
  simp only [cleanupOnline, hu1, hu2,
    untagFunds_tagged_fresh st deal.dealUuid amt hf,
    untagStorage_fresh st deal.dealUuid hs, hin]
  simp

theorem cleanupOnline_id_bothtags (env : Env) (st : PState)
    (deal : ProviderDealState) (amt sz : Nat)
    (hu1 : env.untagFundsFails = false) (hu2 : env.untagStorageFails = false)
    (hf : ∀ x ∈ st.fundTags, x.1 ≠ deal.dealUuid)
    (hs : ∀ x ∈ st.storageTags, x.1 ≠ deal.dealUuid)
    (hin : deal.inboundFilePath = "") :
    (cleanupOnline env
      { st with fundTags := (deal.dealUuid, amt) :: st.fundTags,
                storageTags := (deal.dealUuid, sz) :: st.storageTags } deal).1 = st := by
  have hff : ((deal.dealUuid, amt) :: st.fundTags).filter
      (fun x => x.1 != deal.dealUuid) = st.fundTags := by
    rw [List.filter_cons]
    simp only [bne_self_eq_false, Bool.false_eq_true, if_false]
    exact List.filter_eq_self.mpr (fun a ha => by simpa using hf a ha)
  have hsf : ((deal.dealUuid, sz) :: st.storageTags).filter
      (fun x => x.1 != deal.dealUuid) = st.storageTags := by
    rw [List.filter_cons]
    simp only [bne_self_eq_false, Bool.false_eq_true, if_false]
    exact List.filter_eq_self.mpr (fun a ha => by simpa using hs a ha)
  simp only [cleanupOnline, hu1, hu2, untagFunds, untagStorage, hin]
  simp [hff, hsf]

theorem cleanupOnline_id_staged (env : Env) (st : PState)
    (deal dealS : ProviderDealState) (amt sz : Nat) (path : String)
    (hu1 : env.untagFundsFails = false) (hu2 : env.untagStorageFails = false)
    (hf : ∀ x ∈ st.fundTags, x.1 ≠ deal.dealUuid)
    (hs : ∀ x ∈ st.storageTags, x.1 ≠ deal.dealUuid)
    (huu : dealS.dealUuid = deal.dealUuid) (hip : dealS.inboundFilePath = path)
    (hne : path ≠ "") :
    (cleanupOnline env
      { st with fundTags := (deal.dealUuid, amt) :: st.fundTags,
                storageTags := (deal.dealUuid, sz) :: st.storageTags,
                stagingFiles := path :: st.stagingFiles } dealS).1 = st := by
  have hff : ((deal.dealUuid, amt) :: st.fundTags).filter
      (fun x => x.1 != deal.dealUuid) = st.fundTags := by
    rw [List.filter_cons]
    simp only [bne_self_eq_false, Bool.false_eq_true, if_false]
    exact List.filter_eq_self.mpr (fun a ha => by simpa using hf a ha)
  have hsf : ((deal.dealUuid, sz) :: st.storageTags).filter
      (fun x => x.1 != deal.dealUuid) = st.storageTags := by
    rw [List.filter_cons]
    simp only [bne_self_eq_false, Bool.false_eq_true, if_false]
    exact List.filter_eq_self.mpr (fun a ha => by simpa using hs a ha)
  simp only [cleanupOnline, hu1, hu2, untagFunds, untagStorage, huu, hip]
  simp [hff, hsf, hne]

/-! ### C4: every post-fund-tagging failure restores the ledgers -/

/-- Claim C4: for every online acceptance attempt on a fresh proposal (no
prior fund/storage tag for its UUID, empty inbound path, collision-free
allocated path) that passes the policy filter but fails afterwards — at fund
tagging, storage tagging, staging-file allocation or the DB insert — the
cleanup routine runs before the rejection is returned: funds are untagged,
storage is untagged, the staging file is removed when one was recorded, and
the resulting provider state (fund ledger, storage ledger, staging area, DB)
equals the initial one. -/
theorem cleanup_on_late_failure (env : Env) (st : PState)
    (deal : ProviderDealState) (a : AcceptError)
    (h1 : checkDealPropUnique env st.dealsDB deal = none)
    (h2 : checkDealUuidUnique env st.dealsDB deal = none)
    (h3 : env.sealingStatusErr = false) (fr : String)
    (hfr : env.filterResult = Except.ok (true, fr))
    (hu1 : env.untagFundsFails = false) (hu2 : env.untagStorageFails = false)
    (hin : deal.inboundFilePath = "")
    (hffresh : ∀ x ∈ st.fundTags, x.1 ≠ deal.dealUuid)
    (hsfresh : ∀ x ∈ st.storageTags, x.1 ≠ deal.dealUuid)
    (hpath : ∀ p, env.downloadFilePath = Except.ok p → p ≠ "")
    (hfail : (processDealProposal env st deal).aerr = some a) :
    (processDealProposal env st deal).state = st ∧
    Event.untagFundsEv ∈ (processDealProposal env st deal).events ∧
    Event.untagStorageEv ∈ (processDealProposal env st deal).events ∧
    ((processDealProposal env st deal).deal.inboundFilePath ≠ "" →
      Event.removeFile (processDealProposal env st deal).deal.inboundFilePath ∈
        (processDealProposal env st deal).events) := by
  cases h5 : env.tagFundsOutcome with
  | insufficientFunds =>
    have hres : processDealProposal env st deal =
        ⟨(cleanupOnline env st deal).1, deal,
         [.checkPropUnique, .checkUuidUnique, .getSealingStatus, .invokeDealFilter,
          .tagFundsEv] ++ (cleanupOnline env st deal).2,
         some ⟨false, "server error: provider has insufficient funds to accept deal"⟩⟩ := by
      simp [processDealProposal, h1, h2, h3, hfr, h5]
    rw [hres]
    refine ⟨cleanupOnline_id env st deal hu1 hu2 hffresh hsfresh hin, ?_, ?_, ?_⟩
    · exact List.mem_append.mpr (Or.inr (cleanupOnline_events_mem env st deal).1)
    · exact List.mem_append.mpr (Or.inr (cleanupOnline_events_mem env st deal).2)
    · intro hcon
      exact absurd hin hcon
  | otherErr =>
    have hres : processDealProposal env st deal =
        ⟨(cleanupOnline env st deal).1, deal,
         [.checkPropUnique, .checkUuidUnique, .getSealingStatus, .invokeDealFilter,
          .tagFundsEv] ++ (cleanupOnline env st deal).2,
         some ⟨true, "server error: tag funds"⟩⟩ := by
      simp [processDealProposal, h1, h2, h3, hfr, h5]
    rw [hres]
    refine ⟨cleanupOnline_id env st deal hu1 hu2 hffresh hsfresh hin, ?_, ?_, ?_⟩
    · exact List.mem_append.mpr (Or.inr (cleanupOnline_events_mem env st deal).1)
    · exact List.mem_append.mpr (Or.inr (cleanupOnline_events_mem env st deal).2)
    · intro hcon
      exact absurd hin hcon
  | ok amt =>
  cases h6 : env.tagStorageOutcome with
  | noSpaceLeft =>
    have hres : processDealProposal env st deal =
        ⟨(cleanupOnline env
            { st with fundTags := (deal.dealUuid, amt) :: st.fundTags } deal).1, deal,
         [.checkPropUnique, .checkUuidUnique, .getSealingStatus, .invokeDealFilter,
          .tagFundsEv, .tagStorageEv] ++
           (cleanupOnline env
             { st with fundTags := (deal.dealUuid, amt) :: st.fundTags } deal).2,
         some ⟨false, "server error: provider has no space left for storage deals"⟩⟩ := by
      simp [processDealProposal, h1, h2, h3, hfr, h5, h6]
    rw [hres]
    refine ⟨cleanupOnline_id_fundtag env st deal amt hu1 hu2 hffresh hsfresh hin,
      ?_, ?_, ?_⟩
    · exact List.mem_append.mpr (Or.inr (cleanupOnline_events_mem env _ deal).1)
    · exact List.mem_append.mpr (Or.inr (cleanupOnline_events_mem env _ deal).2)
    · intro hcon
      exact absurd hin hcon
  | otherErr =>
    have hres : processDealProposal env st deal =
        ⟨(cleanupOnline env
            { st with fundTags := (deal.dealUuid, amt) :: st.fundTags } deal).1, deal,
         [.checkPropUnique, .checkUuidUnique, .getSealingStatus, .invokeDealFilter,
          .tagFundsEv, .tagStorageEv] ++
           (cleanupOnline env
             { st with fundTags := (deal.dealUuid, amt) :: st.fundTags } deal).2,
         some ⟨true, "server error: tag storage"⟩⟩ := by
      simp [processDealProposal, h1, h2, h3, hfr, h5, h6]
    rw [hres]
    refine ⟨cleanupOnline_id_fundtag env st deal amt hu1 hu2 hffresh hsfresh hin,
      ?_, ?_, ?_⟩
    · exact List.mem_append.mpr (Or.inr (cleanupOnline_events_mem env _ deal).1)
    · exact List.mem_append.mpr (Or.inr (cleanupOnline_events_mem env _ deal).2)
    · intro hcon
      exact absurd hin hcon
  | ok =>
  cases h7 : env.downloadFilePath with
  | error e =>
    have hres : processDealProposal env st deal =
        ⟨(cleanupOnline env
            { st with fundTags := (deal.dealUuid, amt) :: st.fundTags,
                      storageTags := (deal.dealUuid, deal.transferSize) ::
                        st.storageTags } deal).1, deal,
         [.checkPropUnique, .checkUuidUnique, .getSealingStatus, .invokeDealFilter,
          .tagFundsEv, .tagStorageEv, .allocStagingFile] ++
           (cleanupOnline env
             { st with fundTags := (deal.dealUuid, amt) :: st.fundTags,
                       storageTags := (deal.dealUuid, deal.transferSize) ::
                         st.storageTags } deal).2,
         some ⟨true, "server error: creating download staging file"⟩⟩ := by
      simp [processDealProposal, h1, h2, h3, hfr, h5, h6, h7]
    rw [hres]
    refine ⟨cleanupOnline_id_bothtags env st deal amt deal.transferSize hu1 hu2
      hffresh hsfresh hin, ?_, ?_, ?_⟩
    · exact List.mem_append.mpr (Or.inr (cleanupOnline_events_mem env _ deal).1)
    · exact List.mem_append.mpr (Or.inr (cleanupOnline_events_mem env _ deal).2)
    · intro hcon
      exact absurd hin hcon
  | ok path =>
  have hne : path ≠ "" := hpath path h7
  cases h8 : env.insertFails with
  | true =>
    have hres : processDealProposal env st deal =
        ⟨(cleanupOnline env
            { st with fundTags := (deal.dealUuid, amt) :: st.fundTags,
                      storageTags := (deal.dealUuid, deal.transferSize) ::
                        st.storageTags,
                      stagingFiles := path :: st.stagingFiles }
            { deal with inboundFilePath := path, createdAt := env.now,
                        checkpoint := .Accepted, checkpointAt := env.now }).1,
         { deal with inboundFilePath := path, createdAt := env.now,
                     checkpoint := .Accepted, checkpointAt := env.now },
         [.checkPropUnique, .checkUuidUnique, .getSealingStatus, .invokeDealFilter,
          .tagFundsEv, .tagStorageEv, .allocStagingFile] ++
           (cleanupOnline env
             { st with fundTags := (deal.dealUuid, amt) :: st.fundTags,
                       storageTags := (deal.dealUuid, deal.transferSize) ::
                         st.storageTags,
                       stagingFiles := path :: st.stagingFiles }
             { deal with inboundFilePath := path, createdAt := env.now,
                         checkpoint := .Accepted, checkpointAt := env.now }).2,
         some ⟨true, "server error: save to db"⟩⟩ := by
      simp [processDealProposal, h1, h2, h3, hfr, h5, h6, h7, h8]
    rw [hres]
    refine ⟨cleanupOnline_id_staged env st deal _ amt deal.transferSize path hu1 hu2
      hffresh hsfresh rfl rfl hne, ?_, ?_, ?_⟩
    · exact List.mem_append.mpr (Or.inr (cleanupOnline_events_mem env _ _).1)
    · exact List.mem_append.mpr (Or.inr (cleanupOnline_events_mem env _ _).2)
    · intro hcon
      refine List.mem_append.mpr (Or.inr ?_)
      exact cleanupOnline_events_removeFile env _ _ hcon
  | false =>
    simp [processDealProposal, h1, h2, h3, hfr, h5, h6, h7, h8] at hfail

/-- Witness for `cleanup_on_late_failure` at a concrete proposal whose DB
insert fails after funds, storage and the staging file were all reserved. -/
theorem cleanup_on_late_failure_witness :
    (processDealProposal { envOK with insertFails := true } stEmpty deal1).state =
      stEmpty ∧
    Event.untagFundsEv ∈
      (processDealProposal { envOK with insertFails := true } stEmpty deal1).events ∧
    Event.untagStorageEv ∈
      (processDealProposal { envOK with insertFails := true } stEmpty deal1).events ∧
    ((processDealProposal { envOK with insertFails := true } stEmpty deal1).deal.inboundFilePath ≠ "" →
      Event.removeFile
        (processDealProposal { envOK with insertFails := true } stEmpty deal1).deal.inboundFilePath ∈
        (processDealProposal { envOK with insertFails := true } stEmpty deal1).events) :=
  cleanup_on_late_failure { envOK with insertFails := true } stEmpty deal1
    ⟨true, "server error: save to db"⟩ rfl rfl rfl "" rfl rfl rfl rfl
    (by intro x hx; simp [stEmpty] at hx) (by intro x hx; simp [stEmpty] at hx)
    (by intro p hp; simp [envOK] at hp; rw [← hp]; decide) rfl



/-! ### Untag result lemmas -/

theorem untagFunds_snd_ne_err (st : PState) (u : String) :
    ((untagFunds false st u).2 == UntagResult.err) = false := by
  unfold untagFunds
  simp only [Bool.false_eq_true, if_false]
  split <;> rfl

theorem untagStorage_snd_ne_err (st : PState) (u : String) :
    ((untagStorage false st u).2 == UntagResult.err) = false := by
  unfold untagStorage
  simp only [Bool.false_eq_true, if_false]
  split <;> rfl

theorem untagFunds_any_after (st : PState) (u : String) :
    ((untagFunds false st u).1.fundTags.any (fun x => x.1 == u)) = false := by
  unfold untagFunds
  simp only [Bool.false_eq_true, if_false]
  split
  · refine List.any_eq_false.mpr ?_
    intro a ha
    have := (List.mem_filter.mp ha).2
    simp only [bne_iff_ne, ne_eq] at this
    simp [this]
  · rename_i h
    exact Bool.eq_false_iff.mpr h

theorem untagStorage_any_after (st : PState) (u : String) :
    ((untagStorage false st u).1.storageTags.any (fun x => x.1 == u)) = false := by
  unfold untagStorage
  simp only [Bool.false_eq_true, if_false]
  split
  · refine List.any_eq_false.mpr ?_
    intro a ha
    have := (List.mem_filter.mp ha).2
    simp only [bne_iff_ne, ne_eq] at this
    simp [this]
  · rename_i h
    exact Bool.eq_false_iff.mpr h

theorem untagFunds_snd_of_any_false (st : PState) (u : String)
    (h : st.fundTags.any (fun x => x.1 == u) = false) :
    (untagFunds false st u).2 = UntagResult.notFound := by
  simp [untagFunds, h]

theorem untagStorage_snd_of_any_false (st : PState) (u : String)
    (h : st.storageTags.any (fun x => x.1 == u) = false) :
    (untagStorage false st u).2 = UntagResult.notFound := by
  simp [untagStorage, h]

theorem handleFinish_loggedError_false (st : PState) (u : String) :
    (handleFinish false false st u).loggedError = false := by
  show ((untagFunds false st u).2 == UntagResult.err ||
    ((untagStorage false (untagFunds false st u).1 u).2 == UntagResult.err)) = false
  rw [untagFunds_snd_ne_err, untagStorage_snd_ne_err]
  rfl

/-! ### C5: offline proposal phase -/

/-- Claim C5: every offline deal proposal in the proposal phase
(`IsOffline = true`, `isImport = false`) that passes both uniqueness checks
(with the insert and emitter succeeding) gets its DB row inserted at
checkpoint `Accepted` with `CreatedAt = CheckpointAt = now`, a handler with
a stateful emitter, a `DealNew` event followed by a deal-update event, an
`Accepted: true` reply — and the loop neither spawns a fiber nor tags funds
or storage. -/
theorem offline_proposal_spec (env : Env) (st : PState)
    (deal : ProviderDealState) (hoff : deal.isOffline = true)
    (h1 : checkDealPropUnique env st.dealsDB deal = none)
    (h2 : checkDealUuidUnique env st.dealsDB deal = none)
    (hins : env.insertFails = false) (hemit : env.emitterFails = false) :
    (handleAccept env st deal false).aerr = none ∧
    (handleAccept env st deal false).actions = [LoopAction.reply true ""] ∧
    (handleAccept env st deal false).events =
      [Event.checkPropUnique, Event.checkUuidUnique,
       Event.dbInsert env.now Checkpoint.Accepted env.now,
       Event.mkHandler, Event.mkEmitter, Event.fireDealNew, Event.fireDealUpdate] ∧
    (handleAccept env st deal false).state.dealsDB = st.dealsDB ++
      [{ deal with createdAt := env.now, checkpoint := Checkpoint.Accepted,
                   checkpointAt := env.now }] ∧
    (handleAccept env st deal false).state.fundTags = st.fundTags ∧
    (handleAccept env st deal false).state.storageTags = st.storageTags ∧
    LoopAction.spawnFiber ∉ (handleAccept env st deal false).actions ∧
    Event.tagFundsEv ∉ (handleAccept env st deal false).events ∧
    Event.tagStorageEv ∉ (handleAccept env st deal false).events := by
  have hres : handleAccept env st deal false =
      ⟨{ st with dealsDB := st.dealsDB ++
          [{ deal with createdAt := env.now, checkpoint := Checkpoint.Accepted,
                       checkpointAt := env.now }] },
       { deal with createdAt := env.now, checkpoint := Checkpoint.Accepted,
                   checkpointAt := env.now },
       [Event.checkPropUnique, Event.checkUuidUnique,
        Event.dbInsert env.now Checkpoint.Accepted env.now,
        Event.mkHandler, Event.mkEmitter, Event.fireDealNew, Event.fireDealUpdate],
       none, [LoopAction.reply true ""]⟩ := by
    simp [handleAccept, hoff, processOfflineDealProposal, h1, h2, hins, hemit]
  rw [hres]
  refine ⟨rfl, rfl, rfl, rfl, rfl, rfl, by simp, by simp, by simp⟩

/-- Witness for `offline_proposal_spec` at a concrete offline proposal
accepted against an empty DB. -/
theorem offline_proposal_spec_witness :
    (handleAccept envOK stEmpty deal2 false).aerr = none ∧
    (handleAccept envOK stEmpty deal2 false).actions = [LoopAction.reply true ""] ∧
    (handleAccept envOK stEmpty deal2 false).events =
      [Event.checkPropUnique, Event.checkUuidUnique,
       Event.dbInsert envOK.now Checkpoint.Accepted envOK.now,
       Event.mkHandler, Event.mkEmitter, Event.fireDealNew, Event.fireDealUpdate] ∧
    (handleAccept envOK stEmpty deal2 false).state.dealsDB = stEmpty.dealsDB ++
      [{ deal2 with createdAt := envOK.now, checkpoint := Checkpoint.Accepted,
                    checkpointAt := envOK.now }] ∧
    (handleAccept envOK stEmpty deal2 false).state.fundTags = stEmpty.fundTags ∧
    (handleAccept envOK stEmpty deal2 false).state.storageTags = stEmpty.storageTags ∧
    LoopAction.spawnFiber ∉ (handleAccept envOK stEmpty deal2 false).actions ∧
    Event.tagFundsEv ∉ (handleAccept envOK stEmpty deal2 false).events ∧
    Event.tagStorageEv ∉ (handleAccept envOK stEmpty deal2 false).events :=
  offline_proposal_spec envOK stEmpty deal2 rfl rfl rfl rfl rfl

/-! ### C6: offline import phase -/

/-- Claim C6: every offline import request (`IsOffline = true`,
`isImport = true`) performs only fund tagging — its trace never contains a
uniqueness check, sealing-status query, policy-filter invocation or storage
tagging — on success the loop spawns the deal fiber, and on fund-tagging
failure funds are untagged (tolerating `NotFound`) with the same
severe/non-severe classification and reasons as the online fund-tagging
stage. -/
theorem import_offline_spec (env : Env) (st : PState)
    (deal : ProviderDealState) (hoff : deal.isOffline = true)
    (hu1 : env.untagFundsFails = false) :
    (∀ e ∈ (handleAccept env st deal true).events,
      e = Event.tagFundsEv ∨ e = Event.untagFundsEv) ∧
    (∀ amt, env.tagFundsOutcome = TagFundsOutcome.ok amt →
      (handleAccept env st deal true).events = [Event.tagFundsEv] ∧
      (handleAccept env st deal true).actions =
        [LoopAction.spawnFiber, LoopAction.reply true ""] ∧
      (handleAccept env st deal true).state.fundTags =
        (deal.dealUuid, amt) :: st.fundTags) ∧
    (env.tagFundsOutcome = TagFundsOutcome.insufficientFunds →
      (handleAccept env st deal true).events =
        [Event.tagFundsEv, Event.untagFundsEv] ∧
      (handleAccept env st deal true).aerr = some ⟨false,
        "server error: provider has insufficient funds to accept deal"⟩ ∧
      (handleAccept env st deal true).actions = [LoopAction.logInfoAct,
        LoopAction.reply false
          "server error: provider has insufficient funds to accept deal"] ∧
      fundTagged (handleAccept env st deal true).state deal.dealUuid = 0) ∧
    (env.tagFundsOutcome = TagFundsOutcome.otherErr →
      (handleAccept env st deal true).events =
        [Event.tagFundsEv, Event.untagFundsEv] ∧
      (handleAccept env st deal true).aerr =
        some ⟨true, "server error: tag funds"⟩ ∧
      (handleAccept env st deal true).actions = [LoopAction.logErrorAct,
        LoopAction.reply false "server error: tag funds"] ∧
      fundTagged (handleAccept env st deal true).state deal.dealUuid = 0) := by
  refine ⟨?_, ?_, ?_, ?_⟩
  · intro e he
    cases h : env.tagFundsOutcome with
    | ok amt =>
      simp [handleAccept, hoff, processImportOfflineDealData, h, finishAccept] at he
      simp [he]
    | insufficientFunds =>
      simp [handleAccept, hoff, processImportOfflineDealData, h, finishAccept] at he
      rcases he with he | he <;> simp [he]
    | otherErr =>
      simp [handleAccept, hoff, processImportOfflineDealData, h, finishAccept] at he
      rcases he with he | he <;> simp [he]
  · intro amt h
    have hres : handleAccept env st deal true =
        ⟨{ st with fundTags := (deal.dealUuid, amt) :: st.fundTags }, deal,
         [Event.tagFundsEv], none,
         [LoopAction.spawnFiber, LoopAction.reply true ""]⟩ := by
      simp [handleAccept, hoff, processImportOfflineDealData, h, finishAccept]
    rw [hres]
    exact ⟨rfl, rfl, rfl⟩
  · intro h
    have hres : handleAccept env st deal true =
        ⟨(untagFunds false st deal.dealUuid).1, deal,
         [Event.tagFundsEv, Event.untagFundsEv],
         some ⟨false, "server error: provider has insufficient funds to accept deal"⟩,
         [LoopAction.logInfoAct, LoopAction.reply false
           "server error: provider has insufficient funds to accept deal"]⟩ := by
      simp [handleAccept, hoff, processImportOfflineDealData, h, hu1, finishAccept]
    rw [hres]
    exact ⟨rfl, rfl, rfl, fundTagged_untagFunds st deal.dealUuid⟩
  · intro h
    have hres : handleAccept env st deal true =
        ⟨(untagFunds false st deal.dealUuid).1, deal,
         [Event.tagFundsEv, Event.untagFundsEv],
         some ⟨true, "server error: tag funds"⟩,
         [LoopAction.logErrorAct, LoopAction.reply false "server error: tag funds"]⟩ := by
      simp [handleAccept, hoff, processImportOfflineDealData, h, hu1, finishAccept]
    rw [hres]
    exact ⟨rfl, rfl, rfl, fundTagged_untagFunds st deal.dealUuid⟩

/-- Witness for `import_offline_spec` at a concrete import request whose
fund tagging succeeds. -/
theorem import_offline_spec_witness :
    (∀ e ∈ (handleAccept envOK stEmpty deal2 true).events,
      e = Event.tagFundsEv ∨ e = Event.untagFundsEv) ∧
    (∀ amt, envOK.tagFundsOutcome = TagFundsOutcome.ok amt →
      (handleAccept envOK stEmpty deal2 true).events = [Event.tagFundsEv] ∧
      (handleAccept envOK stEmpty deal2 true).actions =
        [LoopAction.spawnFiber, LoopAction.reply true ""] ∧
      (handleAccept envOK stEmpty deal2 true).state.fundTags =
        (deal2.dealUuid, amt) :: stEmpty.fundTags) ∧
    (envOK.tagFundsOutcome = TagFundsOutcome.insufficientFunds →
      (handleAccept envOK stEmpty deal2 true).events =
        [Event.tagFundsEv, Event.untagFundsEv] ∧
      (handleAccept envOK stEmpty deal2 true).aerr = some ⟨false,
        "server error: provider has insufficient funds to accept deal"⟩ ∧
      (handleAccept envOK stEmpty deal2 true).actions = [LoopAction.logInfoAct,
        LoopAction.reply false
          "server error: provider has insufficient funds to accept deal"] ∧
      fundTagged (handleAccept envOK stEmpty deal2 true).state deal2.dealUuid = 0) ∧
    (envOK.tagFundsOutcome = TagFundsOutcome.otherErr →
      (handleAccept envOK stEmpty deal2 true).events =
        [Event.tagFundsEv, Event.untagFundsEv] ∧
      (handleAccept envOK stEmpty deal2 true).aerr =
        some ⟨true, "server error: tag funds"⟩ ∧
      (handleAccept envOK stEmpty deal2 true).actions = [LoopAction.logErrorAct,
        LoopAction.reply false "server error: tag funds"] ∧
      fundTagged (handleAccept envOK stEmpty deal2 true).state deal2.dealUuid = 0) :=
  import_offline_spec envOK stEmpty deal2 rfl rfl

/-! ### C7: storage release is idempotent -/

/-- Claim C7: processing a `storageRelease` message is idempotent — after
one or two releases for the same UUID exactly zero storage bytes remain
tagged for it, no error is logged (the second release's `NotFound` from
`Untag` is tolerated), and the `done` channel is closed each time. -/
theorem storageRelease_idempotent (st : PState) (u : String) :
    storageTagged (handleStorageRelease false st u).state u = 0 ∧
    (handleStorageRelease false st u).doneSignalled = true ∧
    (handleStorageRelease false st u).loggedError = false ∧
    (untagStorage false (handleStorageRelease false st u).state u).2 =
      UntagResult.notFound ∧
    storageTagged
      (handleStorageRelease false (handleStorageRelease false st u).state u).state
      u = 0 ∧
    (handleStorageRelease false
      (handleStorageRelease false st u).state u).doneSignalled = true ∧
    (handleStorageRelease false
      (handleStorageRelease false st u).state u).loggedError = false :=
  ⟨storageTagged_untagStorage st u, rfl, untagStorage_snd_ne_err st u,
   untagStorage_snd_of_any_false _ u (untagStorage_any_after st u),
   storageTagged_untagStorage _ u, rfl, untagStorage_snd_ne_err _ u⟩

/-! ### C8: finish release clears both reservations -/

/-- Claim C8: processing a `finishComplete` message untags both funds and
storage for the deal's UUID (tolerating `NotFound` from either untag) and
signals the `done` channel, so after it no fund and no storage reservation
remains for that UUID, whatever releases already happened earlier. -/
theorem finishComplete_releases (st : PState) (u : String) :
    fundTagged (handleFinish false false st u).state u = 0 ∧
    storageTagged (handleFinish false false st u).state u = 0 ∧
    (handleFinish false false st u).doneSignalled = true ∧
    (handleFinish false false st u).loggedError = false := by
  refine ⟨?_, storageTagged_untagStorage _ u, rfl, handleFinish_loggedError_false st u⟩
  show fundTagged (untagStorage false (untagFunds false st u).1 u).1 u = 0
  rw [fundTagged_congr _ (untagFunds false st u).1 u (untagStorage_fundTags false _ u)]
  exact fundTagged_untagFunds st u

/-! ### C10: publish release always signals done, NotFound not special-cased -/

/-- Claim C10: the `publishComplete` handler always signals `done` after
attempting the fund untag, even when `UntagFunds` errors; it does not
special-case `NotFound`, so a second `publishComplete` for the same UUID
still signals `done` but logs the `NotFound` as an error — unlike the
`finishComplete` and `storageRelease` handlers, which tolerate it. -/
theorem publishComplete_always_done (st : PState) (u : String) (f : Bool) :
    (handlePublish f st u).doneSignalled = true ∧
    (handlePublish false (handlePublish false st u).state u).doneSignalled = true ∧
    (untagFunds false (handlePublish false st u).state u).2 =
      UntagResult.notFound ∧
    (handlePublish false (handlePublish false st u).state u).loggedError = true ∧
    (handleFinish false false (handlePublish false st u).state u).loggedError = false ∧
    (handleStorageRelease false (handlePublish false st u).state u).loggedError
      = false := by
  have h3 : (untagFunds false (handlePublish false st u).state u).2 =
      UntagResult.notFound :=
    untagFunds_snd_of_any_false _ u (untagFunds_any_after st u)
  refine ⟨rfl, rfl, h3, ?_, handleFinish_loggedError_false _ u,
    untagStorage_snd_ne_err _ u⟩
  show (!((untagFunds false (handlePublish false st u).state u).2 ==
    UntagResult.ok)) = true
  rw [h3]
  rfl


end Boost
